import Mathlib

/-!
Verification of the HallucinationLens detection-and-scoring pipeline.

The definitions below are a shallow embedding of the JavaScript sources:
  * `extractKeywords`, `analyzeKeywords`, `calculateTrustScore`,
    `generateMockSearchResults`, `searchDuckDuckGo` come from the first
    generation of `utils.js` (the heuristic variant used by the content
    script);
  * `searchDuckDuckGoLive` and `fallbackSearch` come from the second
    generation of `utils.js` (the live-lookup variant);
  * `bgSearchDuckDuckGo`, `searchWikipedia`, `performSearchRequest` come
    from `background.js`;
  * `processResponseElement`, `runBatch`, `processNewContent` model the
    content-script watcher (`content.js`).

Modelling conventions: JavaScript strings are Lean `String`s
(`String.length` counts code points, which agrees with the JS `.length`
for the BMP text handled here); `toLowerCase` is modelled as ASCII
lowercasing (every table entry in the source is lowercase ASCII, digits
or Korean, and Korean has no case); floating-point averages are modelled
as exact rationals; a JS field that may be `undefined` is an `Option`;
a network fetch that may fail is an `Option` argument; exceptions are
modelled with `Option` results at the points where the source has
`try`/`catch`.
-/

/-- JS whitespace (the `\s` character class and `String.prototype.trim`). -/
def isJsSpace (c : Char) : Bool :=
  let n := c.toNat
  n == 0x20 || n == 0x09 || n == 0x0a || n == 0x0b || n == 0x0c || n == 0x0d ||
  n == 0xa0 || n == 0x1680 || (0x2000 ≤ n && n ≤ 0x200a) || n == 0x2028 ||
  n == 0x2029 || n == 0x202f || n == 0x205f || n == 0x3000 || n == 0xfeff

/-- The JS `\w` character class: `[A-Za-z0-9_]`. -/
def isWordChar (c : Char) : Bool :=
  c.isAlpha || c.isDigit || c == '_'

/-- Hangul syllables, the `가-힣` range of the cleaning regex. -/
def isHangul (c : Char) : Bool :=
  0xac00 ≤ c.toNat && c.toNat ≤ 0xd7a3

/-- JS line terminators (which `.` in a regex does not match). -/
def isLineTerm (c : Char) : Bool :=
  let n := c.toNat
  n == 0x0a || n == 0x0d || n == 0x2028 || n == 0x2029

/-- ASCII lowercasing, modelling `toLowerCase` on the source's data. -/
def asciiLower (s : String) : String :=
  String.mk (s.data.map Char.toLower)

/-- `needle` is a prefix of `hay` (character lists). -/
def charsStartsWith : List Char → List Char → Bool
  | [], _ => true
  | _ :: _, [] => false
  | a :: as, b :: bs => a == b && charsStartsWith as bs

/-- `hay` contains `needle` as a contiguous substring (JS `String.prototype.includes`). -/
def charsIncludes : List Char → List Char → Bool
  | [], needle => needle.isEmpty
  | a :: rest, needle => charsStartsWith needle (a :: rest) || charsIncludes rest needle

/-- JS `s.includes(sub)`. -/
def strIncludes (s sub : String) : Bool :=
  charsIncludes s.data sub.data

/-- JS `String.prototype.trim`. -/
def jsTrim (s : String) : String :=
  String.mk (((s.data.dropWhile isJsSpace).reverse.dropWhile isJsSpace).reverse)

/-- Characters of `s` before the first occurrence of the separator " - ". -/
def charsBeforeDashSep : List Char → List Char
  | [] => []
  | c :: cs =>
    if charsStartsWith [' ', '-', ' '] (c :: cs) then []
    else c :: charsBeforeDashSep cs

/-- JS `s.split(" - ")[0]`. -/
def splitDashHead (s : String) : String :=
  String.mk (charsBeforeDashSep s.data)

/-- UTF-8 bytes of a code point, for `encodeURIComponent`. -/
def utf8Bytes (n : Nat) : List Nat :=
  if n < 0x80 then [n]
  else if n < 0x800 then [0xc0 + n / 64, 0x80 + n % 64]
  else if n < 0x10000 then [0xe0 + n / 4096, 0x80 + (n / 64) % 64, 0x80 + n % 64]
  else [0xf0 + n / 0x40000, 0x80 + (n / 4096) % 64, 0x80 + (n / 64) % 64, 0x80 + n % 64]

/-- Uppercase hexadecimal digit. -/
def hexDigitChar (n : Nat) : Char :=
  if n < 10 then Char.ofNat (48 + n) else Char.ofNat (55 + n)

/-- Characters `encodeURIComponent` leaves unescaped. -/
def isUriUnreserved (c : Char) : Bool :=
  c.isAlpha || c.isDigit ||
  c ∈ ['-', '_', '.', '!', '~', '*', '(', ')', Char.ofNat 39]

/-- JS `encodeURIComponent`. -/
def encodeURIComponent (s : String) : String :=
  String.mk (s.data.foldr
    (fun c acc =>
      if isUriUnreserved c then c :: acc
      else (utf8Bytes c.toNat).foldr
        (fun b acc2 => '%' :: hexDigitChar (b / 16) :: hexDigitChar (b % 16) :: acc2) acc)
    [])

/-- The bilingual stop-word set of `extractKeywords` (utils.js), verbatim. -/
def stopWords : List String :=
  ["the", "a", "an", "and", "or", "but", "in", "on", "at", "to", "for", "of",
   "with", "by", "is", "are", "was", "were", "be", "been", "have", "has", "had",
   "do", "does", "did", "will", "would", "could", "should", "may", "might",
   "can", "this", "that", "these", "those",
   "그", "이", "저", "것", "수", "있", "없", "하", "되", "된", "될", "함", "임",
   "입니다", "습니다", "에서", "에게", "에", "를", "을", "가", "이", "은", "는",
   "으로", "로", "와", "과", "도", "만", "그리고", "또한", "하지만", "그러나",
   "따라서", "그래서", "왜냐하면", "때문에"]

/-- `/^\d+$/.test(word)`: the token is one or more ASCII digits. -/
def isAllDigits (w : String) : Bool :=
  !w.data.isEmpty && w.data.all Char.isDigit

/-- The cleaning step of `extractKeywords`: every character that is not a
word character, JS whitespace or a Hangul syllable becomes a space
(`.replace(/[^\w\s가-힣]/g, " ")`). -/
def cleanChar (c : Char) : Char :=
  if isWordChar c || isJsSpace c || isHangul c then c else ' '

/-- Split a character list on JS whitespace, dropping empty fragments.
Equivalent to `.replace(/\s+/g, " ").trim().split(" ")` followed by the
length filter of `extractKeywords` (the lone empty token produced by
splitting the empty string dies in that filter). -/
def splitWordsAux : List Char → List Char → List String
  | [], acc => if acc.isEmpty then [] else [String.mk acc.reverse]
  | c :: cs, acc =>
    if isJsSpace c then
      if acc.isEmpty then splitWordsAux cs []
      else String.mk acc.reverse :: splitWordsAux cs []
    else splitWordsAux cs (c :: acc)

/-- The surviving tokens of `extractKeywords`: lowercase, cleaned, split,
length at least 2, not a stop word, not all digits. -/
def wordsOf (text : String) : List String :=
  ((splitWordsAux ((text.data.map Char.toLower).map cleanChar) []).filter
      (fun w => decide (2 ≤ w.length))
    |>.filter (fun w => !stopWords.contains w)
    |>.filter (fun w => !isAllDigits w))

/-- Keys of the frequency object in first-occurrence order: string keys of
a JS object preserve insertion order (no surviving token is an array
index, the all-digit filter removed those). -/
def firstOccur (ws : List String) : List String :=
  ws.foldl (fun acc w => if acc.contains w then acc else acc ++ [w]) []

/-- Stable insertion into a frequency-descending list.  In
`sortFreqDesc (x :: xs)` the element `x` precedes every element of `xs`
in the original order, so it is placed before the first entry whose count
is not larger; ties therefore keep first-occurrence order, which is the
behaviour of the stable JS `sort(([, a], [, b]) => b - a)`. -/
def insertFreqDesc (x : String × Nat) : List (String × Nat) → List (String × Nat)
  | [] => [x]
  | y :: ys => if y.2 ≤ x.2 then x :: y :: ys else y :: insertFreqDesc x ys

/-- Stable sort of the frequency entries, descending by count. -/
def sortFreqDesc : List (String × Nat) → List (String × Nat)
  | [] => []
  | x :: xs => insertFreqDesc x (sortFreqDesc xs)

/-- `Object.entries(wordFreq)` sorted by descending frequency (stable on
first-occurrence order). -/
def keywordEntries (text : String) : List (String × Nat) :=
  sortFreqDesc ((firstOccur (wordsOf text)).map
    (fun w => (w, (wordsOf text).count w)))

/-- `HallucinationLensUtils.extractKeywords` (utils.js): top five tokens by
frequency. -/
def extractKeywords (text : String) : List String :=
  ((keywordEntries text).take 5).map Prod.fst

/-- A candidate reference.  `isReliable` and `source` are `Option`s because
several producers in the source omit them (`undefined` in JS). -/
structure EvidenceItem where
  title : String
  url : String
  snippet : String
  isReliable : Option Bool
  source : Option String
deriving Repr, DecidableEq

/-- The verdict produced by `calculateTrustScore`. -/
structure Verdict where
  score : String
  label : String
  reason : String
  color : String
deriving Repr, DecidableEq

/-- The intermediate result of `analyzeKeywords`.  `avgLength` and
`keywordCount` are `Option`s: the empty-keyword short circuit in the
source returns an object without those fields. -/
structure KeywordAnalysis where
  isHighQuality : Bool
  isVeryGeneric : Bool
  avgLength : Option ℚ
  keywordCount : Option Nat
deriving Repr, DecidableEq

/-- The anchored case-insensitive alternation regexes of
`highQualityPatterns` in `analyzeKeywords`, as word lists (every
alternative in the source is lowercase ASCII, a digit string or Korean). -/
def hqWordAlternatives : List (List String) :=
  [["algorithm", "data", "research", "study", "technology", "science",
    "medicine", "physics", "chemistry", "biology", "mathematics", "engineering"],
   ["알고리즘", "데이터", "연구", "기술", "과학", "의학", "물리학", "화학",
    "생물학", "수학", "공학"],
   ["ai", "artificial", "intelligence", "model", "neural", "network",
    "machine", "learning", "deep", "google", "microsoft", "apple", "meta",
    "openai", "anthropic", "claude", "chatgpt", "gemini", "bard"],
   ["인공지능", "모델", "신경망", "머신러닝", "딥러닝", "구글", "마이크로소프트",
    "애플", "메타", "검색", "엔진", "블로그", "웹사이트", "플랫폼"],
   ["definition", "explanation", "history", "geography", "culture",
    "language", "education", "knowledge", "information", "news", "article",
    "report", "publication"],
   ["정의", "설명", "역사", "지리", "문화", "언어", "교육", "지식", "정보",
    "뉴스", "기사", "보고서", "발표", "공식", "출시", "공개", "런칭",
    "업데이트", "버전"],
   ["year", "month", "day", "date", "time", "century", "decade", "2020",
    "2021", "2022", "2023", "2024", "2025"],
   ["년", "월", "일", "날짜", "시간", "세기", "연도"]]

/-- `/.{4,}/.test(w)`: some run of four consecutive non-line-terminator
characters.  `r` counts the current run of preceding such characters. -/
def nonTermRun4 : List Char → Nat → Bool
  | [], _ => false
  | c :: cs, r =>
    if isLineTerm c then nonTermRun4 cs 0
    else (3 ≤ r) || nonTermRun4 cs (r + 1)

/-- One of the `highQualityPatterns` matches: a word-list alternation,
`/\d+/` (contains a digit), or `/.{4,}/`. -/
def matchesHighQuality (w : String) : Bool :=
  hqWordAlternatives.any (fun ws => ws.contains (asciiLower w)) ||
  w.data.any Char.isDigit || nonTermRun4 w.data 0

/-- The word-list alternations of `veryGenericPatterns`. -/
def vgWordAlternatives : List (List String) :=
  [["the", "and", "or", "but", "in", "on", "at", "to", "for", "of", "with",
    "by", "is", "are", "was", "were", "be", "been", "have", "has", "had",
    "do", "does", "did"],
   ["그", "이", "저", "것", "수", "있", "없", "하", "되", "된", "될", "함", "임"]]

/-- One of the `veryGenericPatterns` matches: a word-list alternation or
`/^.{1,2}$/` (length 1 or 2, no line terminator). -/
def matchesVeryGeneric (w : String) : Bool :=
  vgWordAlternatives.any (fun ws => ws.contains (asciiLower w)) ||
  (1 ≤ w.length && w.length ≤ 2 && w.data.all (fun c => !isLineTerm c))

/-- `HallucinationLensUtils.analyzeKeywords` (utils.js, first generation).
The average token length is an exact rational here where the source uses
a JS float. -/
def analyzeKeywords (keywords : List String) : KeywordAnalysis :=
  if keywords.isEmpty then ⟨false, true, none, none⟩
  else
    let avgLength : ℚ := mkRat ((keywords.map String.length).sum : Int) keywords.length
    let hasHighQuality := keywords.any matchesHighQuality
    let isVeryGeneric := keywords.all matchesVeryGeneric || decide (avgLength < 3)
    let isHighQuality :=
      hasHighQuality && decide (2 ≤ keywords.length) && decide (3 ≤ avgLength)
    ⟨isHighQuality, isVeryGeneric, some avgLength, some keywords.length⟩

/-- JS `x >= c` where `x` may be `undefined` (compares false then). -/
def optRatGE (x : Option ℚ) (c : ℚ) : Bool :=
  match x with
  | none => false
  | some v => decide (c ≤ v)

/-- JS `x >= c` on a possibly-undefined integer field. -/
def optNatGE (x : Option Nat) (c : Nat) : Bool :=
  match x with
  | none => false
  | some v => c ≤ v

/-- The reason string of the high-trust branch of `calculateTrustScore`,
which cites the number of reliable results. -/
def highReasonTemplate (n : Nat) : String :=
  toString n ++ "개의 관련 자료를 찾았습니다. 구체적인 키워드로 검증 가능합니다."

/-- The fixed (count-free) reason strings of `calculateTrustScore`. -/
def fixedReasons : List String :=
  ["키워드가 너무 일반적이어서 검증하기 어렵습니다.",
   "구체적인 검증 자료는 부족하지만 일반적인 내용으로 보입니다.",
   "검증하기 어려운 내용입니다.",
   "주관적 의견이나 검증하기 어려운 내용입니다.",
   "관련 자료를 찾았지만 더 구체적인 검증이 필요할 수 있습니다.",
   "내용을 검증하기 위해 추가 확인이 필요합니다."]

/-- `HallucinationLensUtils.calculateTrustScore` (utils.js, first
generation): combines keyword analysis with the evidence list into a
Verdict. -/
def calculateTrustScore (searchResults : List EvidenceItem)
    (keywords : List String) : Verdict :=
  let ka := analyzeKeywords keywords
  if searchResults.isEmpty then
    if ka.isVeryGeneric then
      ⟨"low", "신뢰도: 낮음", "키워드가 너무 일반적이어서 검증하기 어렵습니다.", "#ff6b6b"⟩
    else if optRatGE ka.avgLength 3 && optNatGE ka.keywordCount 2 then
      ⟨"medium", "신뢰도: 보통", "구체적인 검증 자료는 부족하지만 일반적인 내용으로 보입니다.", "#ffd43b"⟩
    else
      ⟨"low", "신뢰도: 낮음", "검증하기 어려운 내용입니다.", "#ff6b6b"⟩
  else
    let reliableResults := searchResults.filter (fun r => !(r.isReliable == some false))
    let unreliableResults := searchResults.filter (fun r => r.isReliable == some false)
    if reliableResults.isEmpty && !unreliableResults.isEmpty then
      ⟨"low", "신뢰도: 낮음", "주관적 의견이나 검증하기 어려운 내용입니다.", "#ff6b6b"⟩
    else if !reliableResults.isEmpty then
      if ka.isHighQuality then
        ⟨"high", "신뢰도: 높음", highReasonTemplate reliableResults.length, "#51cf66"⟩
      else
        ⟨"medium", "신뢰도: 보통", "관련 자료를 찾았지만 더 구체적인 검증이 필요할 수 있습니다.", "#ffd43b"⟩
    else
      ⟨"medium", "신뢰도: 보통", "내용을 검증하기 위해 추가 확인이 필요합니다.", "#ffd43b"⟩

/-- The ordinal order on scores: low < medium < high. -/
def scoreRank (s : String) : Nat :=
  if s == "high" then 2 else if s == "medium" then 1 else 0

/-- The `factualKeywords` table of `generateMockSearchResults`, verbatim
(including the source's duplicate entries). -/
def factualKeywords : List String :=
  ["science", "technology", "research", "study", "data", "algorithm",
   "computer", "internet", "physics", "chemistry", "biology", "mathematics",
   "engineering", "medicine", "health", "ai", "artificial", "intelligence",
   "model", "neural", "network", "machine", "learning", "deep", "google",
   "microsoft", "apple", "meta", "openai", "anthropic", "claude", "chatgpt",
   "gemini", "bard",
   "과학", "기술", "연구", "데이터", "알고리즘", "컴퓨터", "인터넷", "물리학",
   "화학", "생물학", "수학", "공학", "의학", "건강", "인공지능", "모델",
   "신경망", "머신러닝", "딥러닝", "구글", "마이크로소프트", "애플", "메타",
   "검색", "엔진", "블로그", "웹사이트", "플랫폼",
   "history", "geography", "country", "city", "world", "culture", "language",
   "population", "year", "month", "day", "date", "time", "century", "decade",
   "2020", "2021", "2022", "2023", "2024", "2025",
   "역사", "지리", "국가", "도시", "세계", "문화", "언어", "인구", "년", "월",
   "일", "날짜", "시간", "세기", "연도",
   "definition", "meaning", "explanation", "how", "what", "when", "where",
   "why", "who", "which",
   "정의", "의미", "설명", "어떻게", "무엇", "언제", "어디서", "왜", "누구",
   "어느",
   "education", "learning", "school", "university", "book", "knowledge",
   "information", "news", "article", "report", "publication",
   "교육", "학습", "학교", "대학교", "책", "지식", "정보", "뉴스", "기사",
   "보고서", "발표", "공식", "출시", "발표", "공개", "런칭", "업데이트", "버전"]

/-- The `subjectiveKeywords` table of `generateMockSearchResults`, verbatim. -/
def subjectiveKeywords : List String :=
  ["opinion", "think", "believe", "feel", "personal", "subjective",
   "preference", "taste", "best", "worst", "favorite", "recommend",
   "suggest", "advice",
   "의견", "생각", "믿다", "느끼다", "개인적", "주관적", "선호", "취향",
   "최고", "최악", "좋아하는", "추천", "제안", "조언"]

/-- Some keyword matches the factual table (substring match in either
direction, case-insensitively). -/
def hasFactualKeywords (keywords : List String) : Bool :=
  keywords.any (fun k => factualKeywords.any (fun f =>
    strIncludes (asciiLower k) (asciiLower f) ||
    strIncludes (asciiLower f) (asciiLower k)))

/-- Some keyword matches the subjective table (substring match in either
direction, case-insensitively). -/
def hasSubjectiveKeywords (keywords : List String) : Bool :=
  keywords.any (fun k => subjectiveKeywords.any (fun s =>
    strIncludes (asciiLower k) (asciiLower s) ||
    strIncludes (asciiLower s) (asciiLower k)))

/-- The average keyword length of `generateMockSearchResults` as an exact
rational (the JS float divides by zero to NaN on an empty list; here the
rational is 0, and both fail the `> 4` test below). -/
def avgKeywordLength (keywords : List String) : ℚ :=
  mkRat ((keywords.map String.length).sum : Int) keywords.length

/-- The complex-keyword heuristic: average length above 4 and at least
three keywords. -/
def hasComplexKeywords (keywords : List String) : Bool :=
  decide (4 < avgKeywordLength keywords) && decide (3 ≤ keywords.length)

/-- `HallucinationLensUtils.generateMockSearchResults` (utils.js, first
generation): classifies the keywords and synthesizes 0-2 EvidenceItems;
the final guard overrides everything with the empty list when every
keyword has length at most 1 or there are no keywords.  List indexing
`keywords[0]` / `keywords[1]` is modelled with a default; both sites are
reached only when the index is in range. -/
def generateMockSearchResults (keywords : List String) (query : String) :
    List EvidenceItem :=
  let results :=
    if hasFactualKeywords keywords || hasComplexKeywords keywords then
      let base : List EvidenceItem :=
        [⟨(keywords.headD "") ++ "에 대한 정보",
          "https://duckduckgo.com/?q=" ++ encodeURIComponent query,
          String.intercalate ", " (keywords.take 2) ++
            "와 관련된 정보를 찾았습니다. 자세한 내용은 검색 결과를 확인하세요.",
          some true, none⟩]
      if 1 < keywords.length then
        base ++
          [⟨(keywords.getD 1 "") ++ " 관련 자료",
            "https://duckduckgo.com/?q=" ++ encodeURIComponent (keywords.getD 1 ""),
            (keywords.getD 1 "") ++ "에 대한 추가 정보와 관련 자료들을 확인할 수 있습니다.",
            some true, none⟩]
      else base
    else if hasSubjectiveKeywords keywords then
      [⟨"주관적 의견 관련 내용", "#",
        "이 내용은 주관적 의견이나 개인적 견해를 포함할 수 있습니다.",
        some false, none⟩]
    else []
  if keywords.all (fun k => decide (k.length ≤ 1)) || keywords.length < 1 then []
  else results

/-- `HallucinationLensUtils.searchDuckDuckGo` (utils.js, first generation,
the heuristic Evidence Source): joins the top three keywords into a query
and delegates to the mock generator; empty keywords give the empty list.
The surrounding `try`/`catch` cannot fire (the generator is total). -/
def searchDuckDuckGo (keywords : List String) : List EvidenceItem :=
  if keywords.isEmpty then []
  else generateMockSearchResults keywords (String.intercalate " " (keywords.take 3))

/-- One entry of the `RelatedTopics` array of the instant-answer API.
A JSON field that may be absent is modelled as the empty string
(`undefined` and `""` are equally falsy at every use site). -/
structure RelatedTopic where
  Text : String
  FirstURL : String
deriving Repr, DecidableEq

/-- The parsed JSON of the DuckDuckGo instant-answer API. -/
structure DDGResponse where
  Abstract : String
  AbstractURL : String
  Heading : String
  RelatedTopics : List RelatedTopic
  Answer : String
  AnswerURL : String
deriving Repr, DecidableEq

/-- JS `s || dflt` on strings (empty is falsy). -/
def jsOrDefault (s dflt : String) : String :=
  if s == "" then dflt else s

/-- The result-parsing block of the second-generation
`HallucinationLensUtils.searchDuckDuckGo` (utils.js): Abstract plus up to
two related topics, no reliability field.  `substring(0, 150)` is
`String.take 150`. -/
def ddgParseLive (d : DDGResponse) : List EvidenceItem :=
  let r1 : List EvidenceItem :=
    if d.Abstract != "" && d.AbstractURL != "" then
      [⟨jsOrDefault d.Heading "관련 정보", d.AbstractURL,
        d.Abstract.take 150 ++ "...", none, none⟩]
    else []
  let r2 : List EvidenceItem :=
    (d.RelatedTopics.take 2).filterMap (fun t =>
      if t.FirstURL != "" && t.Text != "" then
        some ⟨jsOrDefault (splitDashHead t.Text) "관련 주제", t.FirstURL,
          t.Text.take 150 ++ "...", none, none⟩
      else none)
  r1 ++ r2

/-- `HallucinationLensUtils.fallbackSearch` (utils.js): the sentinel
"no result" item with url `#`.  Its `try` cannot fire. -/
def fallbackSearch (query : String) : List EvidenceItem :=
  [⟨"검색 결과를 찾을 수 없음", "#",
    "해당 키워드에 대한 구체적인 검색 결과를 찾을 수 없습니다.", none, none⟩]

/-- The second-generation `HallucinationLensUtils.searchDuckDuckGo`
(utils.js), the live-lookup variant.  `resp` is the fetched
instant-answer JSON; `none` covers a network failure, a non-ok response
or a parse error, all of which land in the `catch` and fall back with the
full keyword join as the query. -/
def searchDuckDuckGoLive (keywords : List String) (resp : Option DDGResponse) :
    List EvidenceItem :=
  if keywords.isEmpty then []
  else
    match resp with
    | none => fallbackSearch (String.intercalate " " keywords)
    | some d =>
      let results := ddgParseLive d
      if results.isEmpty then
        fallbackSearch (String.intercalate " " (keywords.take 3))
      else results.take 2

/-- `searchDuckDuckGo` of background.js: Abstract, up to two related
topics and the direct Answer, all tagged reliable; a failed fetch or
parse (`none`) degrades to the empty list. -/
def bgSearchDuckDuckGo (resp : Option DDGResponse) : List EvidenceItem :=
  match resp with
  | none => []
  | some d =>
    let r1 : List EvidenceItem :=
      if d.Abstract != "" && jsTrim d.Abstract != "" then
        [⟨jsOrDefault d.Heading "정보 요약", jsOrDefault d.AbstractURL "#",
          d.Abstract, some true, some "DuckDuckGo"⟩]
      else []
    let r2 : List EvidenceItem :=
      (d.RelatedTopics.take 2).filterMap (fun t =>
        if t.Text != "" && t.FirstURL != "" then
          some ⟨jsOrDefault (splitDashHead t.Text) "관련 주제", t.FirstURL,
            t.Text, some true, some "DuckDuckGo"⟩
        else none)
    let r3 : List EvidenceItem :=
      if d.Answer != "" && jsTrim d.Answer != "" then
        [⟨"직접 답변", jsOrDefault d.AnswerURL "#", d.Answer, some true,
          some "DuckDuckGo"⟩]
      else []
    r1 ++ r2 ++ r3

/-- The per-page summary of the Wikipedia REST API, as used by
`searchWikipedia` in background.js. -/
structure WikiSummary where
  title : String
  extract : String
  desktopPage : Option String
deriving Repr, DecidableEq

/-- One entry of `searchData.pages`; `summary = none` models a per-page
summary fetch that threw (caught per page in the source). -/
structure WikiPage where
  key : String
  summary : Option WikiSummary
deriving Repr, DecidableEq

/-- `searchWikipedia` of background.js: summaries of the top two search
hits, tagged reliable; a failed search fetch (`none`) or an empty/missing
page list degrades to the empty list. -/
def searchWikipedia (resp : Option (List WikiPage)) : List EvidenceItem :=
  match resp with
  | none => []
  | some pages =>
    if pages.isEmpty then []
    else
      (pages.take 2).filterMap (fun p =>
        match p.summary with
        | none => none
        | some s =>
          if s.extract != "" then
            some ⟨s.title,
              (match s.desktopPage with
               | some u =>
                 if u == "" then "https://en.wikipedia.org/wiki/" ++ p.key else u
               | none => "https://en.wikipedia.org/wiki/" ++ p.key),
              s.extract, some true, some "Wikipedia"⟩
          else none)

/-- `performSearchRequest` of background.js: the instant-answer source,
then the encyclopedia source, then the empty list. -/
def performSearchRequest (ddg : Option DDGResponse)
    (wiki : Option (List WikiPage)) : List EvidenceItem :=
  let d := bgSearchDuckDuckGo ddg
  if 0 < d.length then d
  else
    let w := searchWikipedia wiki
    if 0 < w.length then w else []

/-- The collaborators of one `processResponseElement` run in content.js.
Element identities are opaque naturals.  `textOf el = none` models
`extractTextContent` (or anything before the length check) throwing;
`searchOf el = none` models the evidence lookup throwing.  Both land in
the single `catch` of `processResponseElement`. -/
structure PipelineEnv where
  textOf : Nat → Option String
  searchOf : Nat → Option (List EvidenceItem)

/-- The body of the `try` block of
`HallucinationLensContent.processResponseElement` for an element that is
not yet processed: `none` when the element is skipped (short text, no
keywords) or when a step throws; otherwise the verdict handed to the
Presenter. -/
def candidateOverlay (env : PipelineEnv) (el : Nat) : Option Verdict :=
  match env.textOf el with
  | none => none
  | some text =>
    if text.length < 50 then none
    else
      let keywords := extractKeywords text
      if keywords.length = 0 then none
      else
        match env.searchOf el with
        | none => none
        | some searchResults => some (calculateTrustScore searchResults keywords)

/-- `HallucinationLensContent.processResponseElement` (content.js): bail
out if already processed, otherwise mark processed first and then run the
guarded pipeline body. -/
def processResponseElement (env : PipelineEnv) (processed : List Nat)
    (el : Nat) : List Nat × Option Verdict :=
  if processed.contains el then (processed, none)
  else (el :: processed, candidateOverlay env el)

/-- The `forEach` of `processNewContent`: run `processResponseElement` on
each candidate in order, collecting the Presenter invocations. -/
def runBatch (env : PipelineEnv) : List Nat → List Nat →
    List Nat × List (Nat × Verdict)
  | [], processed => (processed, [])
  | el :: rest, processed =>
    let step := processResponseElement env processed el
    let recur := runBatch env rest step.1
    (recur.1,
      (match step.2 with | some v => [(el, v)] | none => []) ++ recur.2)

/-- `HallucinationLensContent.processNewContent` (content.js): filter the
discovered candidates against the processed set, then process each.
`discovered` stands for the result of `findResponseElements()`; "no new
DOM content" means the same `discovered` list. -/
def processNewContent (env : PipelineEnv) (discovered : List Nat)
    (processed : List Nat) : List Nat × List (Nat × Verdict) :=
  runBatch env (discovered.filter (fun el => !(processed.contains el))) processed

/-- The `validResults` filter of `HallucinationLensContent.createOverlay`
(content.js): the displayed reference list drops every sentinel url. -/
def overlayValidResults (searchResults : List EvidenceItem) : List EvidenceItem :=
  searchResults.filter (fun r => r.url != "#")

theorem insertFreqDesc_nil (x : String × Nat) : insertFreqDesc x [] = [x] := rfl

theorem insertFreqDesc_cons (x y : String × Nat) (ys : List (String × Nat)) :
    insertFreqDesc x (y :: ys) =
      if y.2 ≤ x.2 then x :: y :: ys else y :: insertFreqDesc x ys := rfl

theorem sortFreqDesc_cons (x : String × Nat) (xs : List (String × Nat)) :
    sortFreqDesc (x :: xs) = insertFreqDesc x (sortFreqDesc xs) := rfl

/-- Elements of a stable insertion are the inserted element or old elements. -/
theorem mem_insertFreqDesc {x b : String × Nat} {l : List (String × Nat)}
    (h : b ∈ insertFreqDesc x l) : b = x ∨ b ∈ l := by
  induction l with
  | nil =>
    rw [insertFreqDesc_nil] at h
    exact Or.inl (List.mem_singleton.mp h)
  | cons y ys ih =>
    rw [insertFreqDesc_cons] at h
    by_cases hc : y.2 ≤ x.2
    · rw [if_pos hc] at h
      rcases List.mem_cons.mp h with h | h
      · exact Or.inl h
      · exact Or.inr h
    · rw [if_neg hc] at h
      rcases List.mem_cons.mp h with h | h
      · exact Or.inr (List.mem_cons.mpr (Or.inl h))
      · rcases ih h with h | h
        · exact Or.inl h
        · exact Or.inr (List.mem_cons.mpr (Or.inr h))

/-- Stable insertion preserves the frequency-descending invariant. -/
theorem insertFreqDesc_pairwise (x : String × Nat) (l : List (String × Nat))
    (h : l.Pairwise (fun a b => b.2 ≤ a.2)) :
    (insertFreqDesc x l).Pairwise (fun a b => b.2 ≤ a.2) := by
  induction l with
  | nil =>
    rw [insertFreqDesc_nil]
    simp
  | cons y ys ih =>
    rcases List.pairwise_cons.mp h with ⟨hy, hys⟩
    rw [insertFreqDesc_cons]
    by_cases hc : y.2 ≤ x.2
    · rw [if_pos hc]
      refine List.pairwise_cons.mpr ⟨?_, h⟩
      intro b hb
      rcases List.mem_cons.mp hb with hb | hb
      · subst hb; exact hc
      · exact le_trans (hy b hb) hc
    · rw [if_neg hc]
      refine List.pairwise_cons.mpr ⟨?_, ih hys⟩
      intro b hb
      rcases mem_insertFreqDesc hb with hb | hb
      · subst hb; omega
      · exact hy b hb

/-- The sorted frequency entries are pairwise descending. -/
theorem sortFreqDesc_pairwise (l : List (String × Nat)) :
    (sortFreqDesc l).Pairwise (fun a b => b.2 ≤ a.2) := by
  induction l with
  | nil => exact List.Pairwise.nil
  | cons x xs ih =>
    rw [sortFreqDesc_cons]
    exact insertFreqDesc_pairwise x (sortFreqDesc xs) ih

/-- Sorting does not invent entries. -/
theorem mem_sortFreqDesc {b : String × Nat} {l : List (String × Nat)}
    (h : b ∈ sortFreqDesc l) : b ∈ l := by
  induction l with
  | nil => exact absurd h (by simp [sortFreqDesc])
  | cons x xs ih =>
    rw [sortFreqDesc_cons] at h
    rcases mem_insertFreqDesc h with h' | h'
    · exact List.mem_cons.mpr (Or.inl h')
    · exact List.mem_cons.mpr (Or.inr (ih h'))

/-- Every sorted frequency entry records the true occurrence count of its
token among the surviving words. -/
theorem keywordEntries_count (t : String) :
    (keywordEntries t).all (fun e => e.2 == (wordsOf t).count e.1) = true := by
  rw [List.all_eq_true]
  intro e he
  have hmem := mem_sortFreqDesc (l := (firstOccur (wordsOf t)).map
    (fun w => (w, (wordsOf t).count w))) he
  rcases List.mem_map.mp hmem with ⟨w, _, hw⟩
  subst hw
  simp

/-- Claim C2: the keyword extractor is deterministic (it is a pure
function of its input), orders its output by descending token frequency
with ties broken by first-occurrence order, and returns at most 5
keywords; in particular `extract("AI AI AI model model data")` is exactly
`["ai", "model", "data"]`, and on the all-tied input `"alpha beta"` the
first-occurrence order is kept. -/
theorem claim_C2_extractor_frequency_order :
    extractKeywords "AI AI AI model model data" = ["ai", "model", "data"]
    ∧ extractKeywords "alpha beta" = ["alpha", "beta"]
    ∧ (∀ t : String, (extractKeywords t).length ≤ 5)
    ∧ (∀ t : String,
        extractKeywords t = ((keywordEntries t).take 5).map Prod.fst)
    ∧ (∀ t : String, (keywordEntries t).Pairwise (fun a b => b.2 ≤ a.2))
    ∧ (∀ t : String,
        (keywordEntries t).all (fun e => e.2 == (wordsOf t).count e.1) = true) := by
  refine ⟨by decide, by decide, ?_, fun t => rfl, fun t => sortFreqDesc_pairwise _,
    keywordEntries_count⟩
  intro t
  simp only [extractKeywords, List.length_map, List.length_take]
  omega

/-- Claim C3 counterexample: the claimed evaluation
`extract("is a it to of 그 이") = []` is false on the code: the token
`"it"` survives the filters. -/
theorem claim_C3_counterexample_stop_filter :
    extractKeywords "is a it to of 그 이" ≠ [] := by decide

/-- Claim C3 amended: the filtering removes every token of
`"is a it to of 그 이"` except `"it"`, which is not in the stop-word set,
so the extractor returns `["it"]`. -/
theorem claim_C3_amended_stop_filter :
    extractKeywords "is a it to of 그 이" = ["it"]
    ∧ stopWords.contains "it" = false := by decide

theorem runBatch_nil (env : PipelineEnv) (processed : List Nat) :
    runBatch env [] processed = (processed, []) := rfl

theorem runBatch_cons (env : PipelineEnv) (el : Nat) (rest processed : List Nat) :
    runBatch env (el :: rest) processed =
      ((runBatch env rest (processResponseElement env processed el).1).1,
        (match (processResponseElement env processed el).2 with
          | some v => [(el, v)] | none => []) ++
        (runBatch env rest (processResponseElement env processed el).1).2) := rfl

theorem processResponseElement_mem (env : PipelineEnv) {processed : List Nat}
    {el : Nat} (h : el ∈ processed) :
    processResponseElement env processed el = (processed, none) := by
  simp [processResponseElement, h]

theorem processResponseElement_not_mem (env : PipelineEnv) {processed : List Nat}
    {el : Nat} (h : el ∉ processed) :
    processResponseElement env processed el =
      (el :: processed, candidateOverlay env el) := by
  simp [processResponseElement, h]

/-- The processed set only grows during a batch. -/
theorem runBatch_processed_superset (env : PipelineEnv) (l : List Nat) :
    ∀ (processed : List Nat) (el : Nat), el ∈ processed →
      el ∈ (runBatch env l processed).1 := by
  induction l with
  | nil => intro processed el h; simpa [runBatch_nil] using h
  | cons a rest ih =>
    intro processed el h
    rw [runBatch_cons]
    apply ih
    by_cases hc : a ∈ processed
    · rw [processResponseElement_mem env hc]
      exact h
    · rw [processResponseElement_not_mem env hc]
      exact List.mem_cons.mpr (Or.inr h)

/-- Every candidate of a batch ends up in the processed set. -/
theorem runBatch_mem_processed (env : PipelineEnv) (l : List Nat) :
    ∀ (processed : List Nat) (el : Nat), el ∈ l →
      el ∈ (runBatch env l processed).1 := by
  induction l with
  | nil => intro _ _ h; exact absurd h (List.not_mem_nil _)
  | cons a rest ih =>
    intro processed el h
    rcases List.mem_cons.mp h with h | h
    · subst h
      rw [runBatch_cons]
      apply runBatch_processed_superset
      by_cases hc : el ∈ processed
      · rw [processResponseElement_mem env hc]
        exact hc
      · rw [processResponseElement_not_mem env hc]
        exact List.mem_cons.mpr (Or.inl rfl)
    · rw [runBatch_cons]
      exact ih _ el h

/-- After one pass every discovered element is in the processed set. -/
theorem processNewContent_all_processed (env : PipelineEnv)
    (discovered processed : List Nat) (el : Nat) (h : el ∈ discovered) :
    el ∈ (processNewContent env discovered processed).1 := by
  by_cases hmem : el ∈ processed
  · exact runBatch_processed_superset env _ processed el hmem
  · apply runBatch_mem_processed
    exact List.mem_filter.mpr ⟨h, by simp [hmem]⟩

/-- Claim C1: running the discovery+submit pass twice in succession with
no new DOM content (the same discovered candidate list) produces zero
Presenter invocations in the second pass: every discovered element was
checked against and added to the processed set during the first pass. -/
theorem claim_C1_pass_idempotent :
    ∀ (env : PipelineEnv) (discovered processed : List Nat),
      (processNewContent env discovered
        (processNewContent env discovered processed).1).2 = [] := by
  intro env discovered processed
  have hfilter :
      discovered.filter
        (fun el => !((processNewContent env discovered processed).1.contains el)) = [] := by
    apply List.filter_eq_nil_iff.mpr
    intro a ha
    simp [processNewContent_all_processed env discovered processed a ha]
  show (runBatch env _ _).2 = []
  rw [hfilter, runBatch_nil]

/-- Every Presenter invocation of a batch comes from the guarded
per-candidate pipeline body. -/
theorem runBatch_overlay_sound (env : PipelineEnv) (l : List Nat) :
    ∀ (processed : List Nat) (p : Nat × Verdict), p ∈ (runBatch env l processed).2 →
      candidateOverlay env p.1 = some p.2 := by
  induction l with
  | nil => intro _ p h; simp [runBatch_nil] at h
  | cons a rest ih =>
    intro processed p h
    rw [runBatch_cons] at h
    by_cases hc : a ∈ processed
    · rw [processResponseElement_mem env hc] at h
      exact ih _ p (by simpa using h)
    · rw [processResponseElement_not_mem env hc] at h
      rcases ho : candidateOverlay env a with _ | v
      · rw [ho] at h
        exact ih _ p (by simpa using h)
      · rw [ho] at h
        rcases List.mem_append.mp h with h | h
        · rcases List.mem_singleton.mp h with rfl
          exact ho
        · exact ih _ p h
  
/-- A qualifying unprocessed candidate of a batch always reaches the
Presenter, whatever happens to the other candidates. -/
theorem runBatch_overlay_complete (env : PipelineEnv) (l : List Nat) :
    ∀ (processed : List Nat) (other : Nat) (ov : Verdict), other ∈ l →
      other ∉ processed → candidateOverlay env other = some ov →
      (other, ov) ∈ (runBatch env l processed).2 := by
  induction l with
  | nil => intro _ _ _ h; exact absurd h (List.not_mem_nil _)
  | cons a rest ih =>
    intro processed other ov hmem hnot hov
    rw [runBatch_cons]
    by_cases heq : other = a
    · subst heq
      rw [processResponseElement_not_mem env hnot, hov]
      exact List.mem_append.mpr (Or.inl (List.mem_singleton.mpr rfl))
    · have hrest : other ∈ rest := by
        rcases List.mem_cons.mp hmem with h | h
        · exact absurd h heq
        · exact h
      apply List.mem_append.mpr
      right
      by_cases hc : a ∈ processed
      · rw [processResponseElement_mem env hc]
        exact ih processed other ov hrest hnot hov
      · rw [processResponseElement_not_mem env hc]
        refine ih _ other ov hrest ?_ hov
        intro hbad
        rcases List.mem_cons.mp hbad with h | h
        · exact heq h
        · exact hnot h

/-- A candidate whose pipeline body throws produces no overlay. -/
theorem candidateOverlay_none_of_throw (env : PipelineEnv) (el : Nat)
    (h : env.textOf el = none ∨ env.searchOf el = none) :
    candidateOverlay env el = none := by
  rcases h with h | h
  · simp [candidateOverlay, h]
  · rcases ht : env.textOf el with _ | text
    · simp [candidateOverlay, ht]
    · simp only [candidateOverlay, ht, h]
      split
      · rfl
      · split
        · rfl
        · rfl

/-- Claim C9: an exception while processing one candidate (modelled as
`textOf` or `searchOf` returning `none`) is caught: the failing candidate
is skipped (it triggers no Presenter invocation), it still ends up in the
processed set (so it is never retried), and every other qualifying
candidate of the same batch is still handed to the Presenter. -/
theorem claim_C9_error_isolation :
    ∀ (env : PipelineEnv) (discovered processed : List Nat) (el : Nat),
      el ∈ discovered →
      (env.textOf el = none ∨ env.searchOf el = none) →
      el ∈ (processNewContent env discovered processed).1
      ∧ (∀ v : Verdict, (el, v) ∉ (processNewContent env discovered processed).2)
      ∧ (∀ (other : Nat) (ov : Verdict), other ∈ discovered → other ∉ processed →
          candidateOverlay env other = some ov →
          (other, ov) ∈ (processNewContent env discovered processed).2) := by
  intro env discovered processed el hmem hthrow
  refine ⟨processNewContent_all_processed env discovered processed el hmem, ?_, ?_⟩
  · intro v hv
    have := runBatch_overlay_sound env _ processed (el, v) hv
    rw [candidateOverlay_none_of_throw env el hthrow] at this
    exact Option.noConfusion this
  · intro other ov ho hnot hov
    apply runBatch_overlay_complete env _ processed other ov _ hnot hov
    exact List.mem_filter.mpr ⟨ho, by simp [hnot]⟩

/-- A concrete environment for the C9 witness: element 1's text
extraction throws, element 2 extracts a long factual text and the
evidence lookup returns the empty list. -/
def envW : PipelineEnv :=
  ⟨fun el => if el = 1 then none
    else some "algorithm algorithm algorithm data data science research",
   fun _ => some []⟩

theorem claim_C9_witness :
    1 ∈ (processNewContent envW [1, 2] []).1
    ∧ (2, calculateTrustScore []
        (extractKeywords "algorithm algorithm algorithm data data science research"))
      ∈ (processNewContent envW [1, 2] []).2 := by
  have h := claim_C9_error_isolation envW [1, 2] [] 1 (by decide) (Or.inl rfl)
  refine ⟨h.1, h.2.2 2 _ (by decide) (by decide) ?_⟩
  decide

/-- With no evidence the scorer never exceeds "medium". -/
theorem calculateTrustScore_empty_le_medium (keywords : List String) :
    scoreRank (calculateTrustScore [] keywords).score ≤ 1 := by
  simp only [calculateTrustScore, List.isEmpty_nil, if_pos]
  split
  · simp [scoreRank]
  · split
    · simp [scoreRank]
    · simp [scoreRank]

/-- With one reliable item the scorer is at least "medium". -/
theorem calculateTrustScore_single_reliable_ge_medium (keywords : List String)
    (r : EvidenceItem) (h : ¬(r.isReliable = some false)) :
    1 ≤ scoreRank (calculateTrustScore [r] keywords).score := by
  have hb : (r.isReliable == some false) = false := beq_eq_false_iff_ne.mpr h
  simp only [calculateTrustScore, List.isEmpty_cons, List.filter, hb,
    Bool.not_false, Bool.false_and, Bool.true_and]
  split
  · rename_i hcond
    simp at hcond
  · split
    · split <;> simp [scoreRank]
    · simp [scoreRank]

/-- Claim C4: the trust scorer is monotone under adding reliable
evidence: for every keyword list and every EvidenceItem whose
`isReliable` is not `false`, scoring that single item never yields a
lower ordinal (low < medium < high) than scoring the empty evidence
list. -/
theorem claim_C4_score_monotone :
    ∀ (keywords : List String) (r : EvidenceItem),
      ¬(r.isReliable = some false) →
      scoreRank (calculateTrustScore [] keywords).score ≤
        scoreRank (calculateTrustScore [r] keywords).score := by
  intro keywords r h
  exact le_trans (calculateTrustScore_empty_le_medium keywords)
    (calculateTrustScore_single_reliable_ge_medium keywords r h)

theorem claim_C4_witness :
    scoreRank (calculateTrustScore [] ["algorithm", "data"]).score ≤
      scoreRank (calculateTrustScore
        [⟨"관련 정보", "https://example.com", "설명", some true, none⟩]
        ["algorithm", "data"]).score :=
  claim_C4_score_monotone ["algorithm", "data"]
    ⟨"관련 정보", "https://example.com", "설명", some true, none⟩ (by decide)

/-- Claim C5: the heuristic evidence source's guard holds: whenever every
keyword has length at most 1 (which includes the empty list), both the
generator and its `searchDuckDuckGo` entry point return the empty
evidence list, regardless of how the keywords classify. -/
theorem claim_C5_guard_empty :
    ∀ (keywords : List String) (query : String),
      (∀ k ∈ keywords, k.length ≤ 1) →
      generateMockSearchResults keywords query = []
      ∧ searchDuckDuckGo keywords = [] := by
  intro keywords query h
  have hall : keywords.all (fun k => decide (k.length ≤ 1)) = true := by
    rw [List.all_eq_true]
    intro k hk
    exact decide_eq_true (h k hk)
  have hgen : ∀ q : String, generateMockSearchResults keywords q = [] := by
    intro q
    simp [generateMockSearchResults, hall]
  refine ⟨hgen query, ?_⟩
  by_cases hk : keywords.isEmpty
  · simp [searchDuckDuckGo, hk]
  · simp [searchDuckDuckGo, hk, hgen]

theorem claim_C5_witness :
    generateMockSearchResults ["a", "b"] "a b" = []
    ∧ searchDuckDuckGo ["a", "b"] = [] :=
  claim_C5_guard_empty ["a", "b"] "a b" (by decide)

/-- Claim C6: for every keyword list that passes the guard (not all
keywords of length at most 1), matches the subjective table, matches no
factual term and fails the complex-keyword heuristic, the heuristic
generator returns exactly one EvidenceItem, marked `isReliable = false`
(with the sentinel url). -/
theorem claim_C6_subjective_single :
    ∀ (keywords : List String) (query : String),
      hasFactualKeywords keywords = false →
      hasComplexKeywords keywords = false →
      hasSubjectiveKeywords keywords = true →
      keywords.all (fun k => decide (k.length ≤ 1)) = false →
      generateMockSearchResults keywords query =
        [⟨"주관적 의견 관련 내용", "#",
          "이 내용은 주관적 의견이나 개인적 견해를 포함할 수 있습니다.",
          some false, none⟩] := by
  intro keywords query hf hc hs hg
  have hne : keywords ≠ [] := by
    intro hnil
    rw [hnil] at hg
    simp at hg
  have hlen : ¬(keywords.length < 1) := by
    have := List.length_pos.mpr hne
    omega
  simp [generateMockSearchResults, hf, hc, hs, hg, hlen]

theorem claim_C6_witness :
    generateMockSearchResults ["좋아하는", "추천"] "좋아하는 추천" =
      [⟨"주관적 의견 관련 내용", "#",
        "이 내용은 주관적 의견이나 개인적 견해를 포함할 수 있습니다.",
        some false, none⟩] :=
  claim_C6_subjective_single ["좋아하는", "추천"] "좋아하는 추천"
    (by decide) (by decide) (by decide) (by decide)

/-- Claim C7 counterexample: the count cited in a Verdict reason is the
number of items with `isReliable` not `false`, regardless of url; on an
evidence list whose only item has the sentinel url `"#"` but is marked
reliable, the high-trust reason cites 1 item although the list holds zero
actionable (non-sentinel) references. -/
theorem claim_C7_counterexample_sentinel_count :
    (calculateTrustScore [⟨"자료", "#", "요약", some true, none⟩]
      ["algorithm", "data"]).reason = highReasonTemplate 1
    ∧ (overlayValidResults [⟨"자료", "#", "요약", some true, none⟩]).length = 0 := by
  constructor
  · decide
  · decide

/-- Claim C7 amended: the scorer's cited count keys on
`isReliable !== false`, not on the url; for every evidence list in which
every sentinel-url item is marked unreliable (as all pipeline-produced
sentinel items are), the count cited in a Verdict reason counts no
sentinel item — every reason is either the high-trust template applied to
the count of reliable non-sentinel items, or one of the fixed count-free
reasons.  Independently, the overlay's displayed reference list always
excludes sentinel items. -/
theorem claim_C7_amended_sentinel_count :
    (∀ (searchResults : List EvidenceItem) (keywords : List String),
      (∀ r ∈ searchResults, r.url = "#" → r.isReliable = some false) →
      (calculateTrustScore searchResults keywords).reason =
        highReasonTemplate ((searchResults.filter
          (fun r => !(r.isReliable == some false) && r.url != "#")).length)
      ∨ (calculateTrustScore searchResults keywords).reason ∈ fixedReasons)
    ∧ (∀ (searchResults : List EvidenceItem) (r : EvidenceItem),
        r ∈ overlayValidResults searchResults → r.url ≠ "#") := by
  constructor
  · intro searchResults keywords h
    have hfil : searchResults.filter (fun r => !(r.isReliable == some false)) =
        searchResults.filter
          (fun r => !(r.isReliable == some false) && r.url != "#") := by
      apply List.filter_congr
      intro r hr
      by_cases hrel : (r.isReliable == some false) = true
      · simp [hrel]
      · have hrel' : (r.isReliable == some false) = false :=
          Bool.eq_false_iff.mpr hrel
        have hurl : r.url ≠ "#" := by
          intro hu
          have hfalse := h r hr hu
          rw [hfalse] at hrel'
          simp at hrel'
        simp [hrel', bne_iff_ne.mpr hurl]
    simp only [calculateTrustScore]
    split
    · split
      · right; simp [fixedReasons]
      · split
        · right; simp [fixedReasons]
        · right; simp [fixedReasons]
    · split
      · right; simp [fixedReasons]
      · split
        · split
          · left
            rw [hfil]
          · right; simp [fixedReasons]
        · right; simp [fixedReasons]
  · intro searchResults r hr
    exact bne_iff_ne.mp (List.mem_filter.mp hr).2

theorem claim_C7_witness :
    ((calculateTrustScore [⟨"관련 정보", "https://example.com", "설명", some true, none⟩]
        ["algorithm", "data"]).reason =
      highReasonTemplate ((([⟨"관련 정보", "https://example.com", "설명", some true, none⟩]
        : List EvidenceItem).filter
          (fun r => !(r.isReliable == some false) && r.url != "#")).length)
     ∨ (calculateTrustScore [⟨"관련 정보", "https://example.com", "설명", some true, none⟩]
        ["algorithm", "data"]).reason ∈ fixedReasons)
    ∧ (⟨"관련 정보", "https://example.com", "설명", some true, none⟩ : EvidenceItem).url ≠ "#" := by
  constructor
  · exact claim_C7_amended_sentinel_count.1
      [⟨"관련 정보", "https://example.com", "설명", some true, none⟩]
      ["algorithm", "data"] (by decide)
  · exact claim_C7_amended_sentinel_count.2
      [⟨"관련 정보", "https://example.com", "설명", some true, none⟩] _ (by decide)

/-- Claim C8 counterexample: the background pipeline violates both parts
of the claim.  With an instant-answer response carrying an abstract, two
related topics and a direct answer, `performSearchRequest` returns 4
items (more than 2); and when both knowledge sources yield nothing it
returns the empty list, not the sentinel item. -/
theorem claim_C8_counterexample_live_cap :
    2 < (performSearchRequest
      (some ⟨"A", "https://a", "H",
        [⟨"T1 - x", "https://t1"⟩, ⟨"T2 - y", "https://t2"⟩], "42",
        "https://ans"⟩) none).length
    ∧ performSearchRequest none none = []
    ∧ performSearchRequest none none ≠ fallbackSearch "" := by
  refine ⟨by decide, by decide, by decide⟩

/-- Claim C8 amended: the 2-item cap and the sentinel fallback belong to
the utils live variant, which consults only the instant-answer API: it
always returns at most 2 items, and it returns the sentinel `#` item when
the fetch fails or when the parsed response is empty (given at least one
keyword).  The background `performSearchRequest` chains the instant-answer
and encyclopedia sources but returns the empty list, with no cap on the
instant-answer branch, when both yield nothing. -/
theorem claim_C8_amended_live_cap :
    (∀ (keywords : List String) (resp : Option DDGResponse),
      (searchDuckDuckGoLive keywords resp).length ≤ 2)
    ∧ (∀ keywords : List String, keywords ≠ [] →
        searchDuckDuckGoLive keywords none =
          fallbackSearch (String.intercalate " " keywords))
    ∧ (∀ (keywords : List String) (d : DDGResponse), keywords ≠ [] →
        ddgParseLive d = [] →
        searchDuckDuckGoLive keywords (some d) =
          fallbackSearch (String.intercalate " " (keywords.take 3)))
    ∧ (∀ (ddg : Option DDGResponse) (wiki : Option (List WikiPage)),
        bgSearchDuckDuckGo ddg = [] → searchWikipedia wiki = [] →
        performSearchRequest ddg wiki = []) := by
  refine ⟨?_, ?_, ?_, ?_⟩
  · intro keywords resp
    by_cases hk : keywords.isEmpty
    · simp [searchDuckDuckGoLive, hk]
    · rcases resp with _ | d
      · simp [searchDuckDuckGoLive, hk, fallbackSearch]
      · by_cases hp : (ddgParseLive d).isEmpty
        · simp [searchDuckDuckGoLive, hk, hp, fallbackSearch]
        · simp only [searchDuckDuckGoLive, hk, hp]
          simp [List.length_take]
  · intro keywords hne
    have hk : keywords.isEmpty = false := by
      simpa [List.isEmpty_iff] using hne
    simp [searchDuckDuckGoLive, hk]
  · intro keywords d hne hp
    have hk : keywords.isEmpty = false := by
      simpa [List.isEmpty_iff] using hne
    simp [searchDuckDuckGoLive, hk, hp]
  · intro ddg wiki hd hw
    simp [performSearchRequest, hd, hw]

theorem claim_C8_witness :
    (searchDuckDuckGoLive ["ai"] none).length ≤ 2
    ∧ searchDuckDuckGoLive ["ai"] none =
        fallbackSearch (String.intercalate " " ["ai"])
    ∧ performSearchRequest none none = [] :=
  ⟨claim_C8_amended_live_cap.1 ["ai"] none,
   claim_C8_amended_live_cap.2.1 ["ai"] (by decide),
   claim_C8_amended_live_cap.2.2.2 none none rfl rfl⟩

/-- The factual-branch urls of the mock generator are https urls and
never the sentinel. -/
theorem mockFactualUrl (e : String) :
    ("https://duckduckgo.com/?q=" ++ e ≠ "#")
    ∧ ∃ tail, "https://duckduckgo.com/?q=" ++ e = "https://" ++ tail := by
  have hlen : ("https://duckduckgo.com/?q=" : String).length = 26 := by decide
  constructor
  · intro h
    have hcong := congrArg String.length h
    rw [String.length_append, hlen] at hcong
    have hone : ("#" : String).length = 1 := by decide
    rw [hone] at hcong
    omega
  · refine ⟨"duckduckgo.com/?q=" ++ e, ?_⟩
    have hsplit : ("https://duckduckgo.com/?q=" : String) =
        "https://" ++ "duckduckgo.com/?q=" := by decide
    rw [hsplit, String.append_assoc]

/-- Claim C10: in the heuristic evidence generator, every returned item
with `isReliable = true` carries an https url and never the sentinel
`"#"`; the sentinel url appears only on the subjective-branch item, which
is always marked `isReliable = false`. -/
theorem claim_C10_reliable_actionable :
    ∀ (keywords : List String) (query : String) (r : EvidenceItem),
      r ∈ generateMockSearchResults keywords query →
      (r.isReliable = some true →
        r.url ≠ "#" ∧ ∃ tail, r.url = "https://" ++ tail)
      ∧ (r.url = "#" → r.isReliable = some false) := by
  intro keywords query r hr
  simp only [generateMockSearchResults] at hr
  split at hr
  · exact absurd hr (List.not_mem_nil r)
  · split at hr
    · split at hr
      · rcases (by simpa using hr :
            r = (⟨(keywords.headD "") ++ "에 대한 정보",
              "https://duckduckgo.com/?q=" ++ encodeURIComponent query,
              String.intercalate ", " (keywords.take 2) ++
                "와 관련된 정보를 찾았습니다. 자세한 내용은 검색 결과를 확인하세요.",
              some true, none⟩ : EvidenceItem)
            ∨ r = (⟨(keywords.getD 1 "") ++ " 관련 자료",
              "https://duckduckgo.com/?q=" ++
                encodeURIComponent (keywords.getD 1 ""),
              (keywords.getD 1 "") ++
                "에 대한 추가 정보와 관련 자료들을 확인할 수 있습니다.",
              some true, none⟩ : EvidenceItem)) with rfl | rfl
        · exact ⟨fun _ => (mockFactualUrl _), fun hu =>
            absurd hu (mockFactualUrl _).1⟩
        · exact ⟨fun _ => (mockFactualUrl _), fun hu =>
            absurd hu (mockFactualUrl _).1⟩
      · rcases (by simpa using hr :
            r = (⟨(keywords.headD "") ++ "에 대한 정보",
              "https://duckduckgo.com/?q=" ++ encodeURIComponent query,
              String.intercalate ", " (keywords.take 2) ++
                "와 관련된 정보를 찾았습니다. 자세한 내용은 검색 결과를 확인하세요.",
              some true, none⟩ : EvidenceItem)) with rfl
        exact ⟨fun _ => (mockFactualUrl _), fun hu =>
          absurd hu (mockFactualUrl _).1⟩
    · split at hr
      · rcases (by simpa using hr :
            r = (⟨"주관적 의견 관련 내용", "#",
              "이 내용은 주관적 의견이나 개인적 견해를 포함할 수 있습니다.",
              some false, none⟩ : EvidenceItem)) with rfl
        exact ⟨fun habs => absurd habs (by decide), fun _ => rfl⟩
      · exact absurd hr (List.not_mem_nil r)

theorem claim_C10_witness :
    (⟨"algorithm에 대한 정보", "https://duckduckgo.com/?q=" ++ encodeURIComponent "q",
      String.intercalate ", " ["algorithm", "data"] ++
        "와 관련된 정보를 찾았습니다. 자세한 내용은 검색 결과를 확인하세요.",
      some true, none⟩ : EvidenceItem).url ≠ "#" :=
  ((claim_C10_reliable_actionable ["algorithm", "data"] "q"
    ⟨"algorithm에 대한 정보", "https://duckduckgo.com/?q=" ++ encodeURIComponent "q",
      String.intercalate ", " ["algorithm", "data"] ++
        "와 관련된 정보를 찾았습니다. 자세한 내용은 검색 결과를 확인하세요.",
      some true, none⟩ (by decide)).1 rfl).1
